import Mathlib

/-!
Verification of the password-strength application (`app.py`).

The development shallowly embeds the core functions of the source file:
`calculate_entropy`, the feature extraction and classification performed in
`predict_password_security`, the strength-threshold policy, the percentage
formatting, and `generate_random_password`, together with the top-level
caller guard of the interactive page.  Python floats are modelled as
rationals (for model scores, which only pass through comparisons and
arithmetic) and as reals (for the entropy value, which involves `log2`).
-/

namespace PassSec

/-! ## Character classification (Python string predicates)

The source classifies characters with Python's `str.isupper`, `str.islower`,
`str.isdigit` and `str.isalnum`.  These are modelled faithfully on the
character repertoire this development uses: the full ASCII range, plus
U+00BD (VULGAR FRACTION ONE HALF), a character that in Python is numeric —
hence alphanumeric — while being neither a letter nor a decimal digit. -/

/-- Python `str.isupper` for a single character, exact on ASCII and on
U+00BD: true exactly for the letters A–Z (code points 65–90). -/
def pyIsUpper (c : Char) : Bool := decide (65 ≤ c.toNat ∧ c.toNat ≤ 90)

/-- Python `str.islower` for a single character, exact on ASCII and on
U+00BD: true exactly for the letters a–z (code points 97–122). -/
def pyIsLower (c : Char) : Bool := decide (97 ≤ c.toNat ∧ c.toNat ≤ 122)

/-- Python `str.isdigit` for a single character, exact on ASCII and on
U+00BD: true exactly for the digits 0–9 (code points 48–57).  U+00BD is
numeric but not a digit in Python. -/
def pyIsDigit (c : Char) : Bool := decide (48 ≤ c.toNat ∧ c.toNat ≤ 57)

/-- Python `str.isalpha` for a single character, exact on ASCII and on
U+00BD: an ASCII character is alphabetic exactly when it is an upper- or
lower-case letter, and U+00BD is not alphabetic. -/
def pyIsAlpha (c : Char) : Bool := pyIsUpper c || pyIsLower c

/-- Python `str.isalnum` for a single character, exact on ASCII and on
U+00BD: alphanumeric means alphabetic, or a digit, or otherwise numeric.
On ASCII this is upper-or-lower-or-digit; U+00BD (code point 189) is
numeric, hence alphanumeric, despite being neither a letter nor a digit. -/
def pyIsAlnum (c : Char) : Bool :=
  pyIsUpper c || pyIsLower c || pyIsDigit c || decide (c.toNat = 189)

/-! ## Entropy calculator (`calculate_entropy`, app.py lines 12–22) -/

/-- `calculate_entropy(password)`: returns 0 on the empty sequence,
otherwise builds the frequency table of the distinct characters and sums
`-(p * log2 p)` with `p = count / len(password)` over the distinct
characters, exactly as the source loop accumulates `entropy -= p * log2 p`. -/
noncomputable def calculate_entropy (password : List Char) : ℝ :=
  if password = [] then 0
  else
    (password.dedup.map (fun c =>
      -(((password.count c : ℝ) / (password.length : ℝ)) *
        Real.logb 2 ((password.count c : ℝ) / (password.length : ℝ))))).sum

/-! ## Feature extraction (app.py lines 26–41) -/

/-- `sum(1 for c in password if c.isupper())` (app.py line 27). -/
def uppercase_count (password : List Char) : ℕ :=
  password.countP (fun c => pyIsUpper c)

/-- `sum(1 for c in password if c.islower())` (app.py line 28). -/
def lowercase_count (password : List Char) : ℕ :=
  password.countP (fun c => pyIsLower c)

/-- `sum(1 for c in password if c.isdigit())` (app.py line 29). -/
def digit_count (password : List Char) : ℕ :=
  password.countP (fun c => pyIsDigit c)

/-- `sum(1 for c in password if not c.isalnum())` (app.py line 30). -/
def symbol_count (password : List Char) : ℕ :=
  password.countP (fun c => !(pyIsAlnum c))

/-- The single-row DataFrame `input_data` built at app.py lines 33–41:
one column per feature, with the entropy appearing twice (columns
`entropy_calculated` and `entropy`, both computed by `calculate_entropy`). -/
structure InputData where
  password_length : ℕ
  uppercase_count : ℕ
  lowercase_count : ℕ
  digit_count : ℕ
  symbol_count : ℕ
  entropy_calculated : ℝ
  entropy : ℝ

/-- Builds the `input_data` row from a password (app.py lines 26–41). -/
noncomputable def input_data (password : List Char) : InputData :=
  ⟨password.length, uppercase_count password, lowercase_count password,
   digit_count password, symbol_count password,
   calculate_entropy password, calculate_entropy password⟩

/-! ## Models and the prediction function (app.py lines 25–70)

The two pretrained models are opaque: each exposes only a prediction on the
feature row (the source's `model.predict(input_data)[0]`).  The app stores
them in variables that are `None` when loading failed; calling `.predict`
on `None` raises `AttributeError` in Python, modelled as an error value. -/

/-- Opaque strength model: `model_strength.predict(input_data)[0]`, a float
(modelled as a rational). -/
structure StrengthModel where
  predict : InputData → ℚ

/-- Opaque crack-time model: `model_crack_time.predict(input_data)[0]`, a
categorical label. -/
structure CrackTimeModel where
  predict : InputData → String

/-- A Python exception escaping `predict_password_security`: calling
`.predict` on a `None` model raises `AttributeError`. -/
inductive PyExn where
  | attributeError
deriving DecidableEq

/-- The dictionary returned by `predict_password_security`
(app.py lines 64–70). -/
structure AnalysisResult where
  strength : ℚ
  strength_percentage : String
  strength_assessment : String
  strength_color : String
  crack_time_category : String

/-- Round-half-even to the nearest integer, the rounding Python applies
when formatting a float with two decimal places. -/
def roundHalfEven (x : ℚ) : ℤ :=
  if x - ⌊x⌋ < 1/2 then ⌊x⌋
  else if 1/2 < x - ⌊x⌋ then ⌊x⌋ + 1
  else if 2 ∣ ⌊x⌋ then ⌊x⌋ else ⌊x⌋ + 1

/-- Python `f"{x:.2f}"`: a sign for negative values, the integer part, a
dot, and exactly two decimal digits of the value rounded half-to-even at
the second decimal place. -/
def pyFormat2f (x : ℚ) : String :=
  let sign : String := if x < 0 then "-" else ""
  let n : ℕ := (roundHalfEven (|x| * 100)).toNat
  (sign ++ toString (n / 100)) ++ "." ++
    String.mk [Char.ofNat (48 + n / 10 % 10), Char.ofNat (48 + n % 10)]

/-- `predict_password_security(password, model_strength, model_crack_time)`
(app.py lines 25–70).  The models are `Option`s because the app passes the
result of `load_models()`, which is `None, None` on failure; `.predict` on
`None` raises `AttributeError` (at line 43 for the strength model and at
line 62 for the crack-time model, after the threshold cascade). -/
noncomputable def predict_password_security (password : List Char)
    (model_strength : Option StrengthModel)
    (model_crack_time : Option CrackTimeModel) :
    Except PyExn AnalysisResult :=
  let data := input_data password
  match model_strength with
  | none => .error .attributeError
  | some ms =>
    let predicted_strength := ms.predict data
    let predicted_strength_percentage := predicted_strength * 100
    let strength_assessment : String :=
      if predicted_strength < 0.2 then "Very Weak"
      else if predicted_strength < 0.4 then "Weak"
      else if predicted_strength < 0.6 then "Medium"
      else if predicted_strength < 0.8 then "Strong"
      else "Very Strong"
    let strength_color : String :=
      if predicted_strength < 0.2 then "red"
      else if predicted_strength < 0.4 then "orange"
      else if predicted_strength < 0.6 then "yellow"
      else if predicted_strength < 0.8 then "green"
      else "darkgreen"
    match model_crack_time with
    | none => .error .attributeError
    | some mc =>
      let predicted_crack_time_category := mc.predict data
      .ok ⟨predicted_strength,
           pyFormat2f predicted_strength_percentage ++ "%",
           strength_assessment, strength_color,
           predicted_crack_time_category⟩

/-- The guard at app.py line 144: the page runs the analysis only when the
entered password is non-empty (truthy) and both models loaded (not `None`);
otherwise nothing is rendered. -/
noncomputable def main_analysis (password_input : List Char)
    (ms : Option StrengthModel) (mc : Option CrackTimeModel) :
    Option (Except PyExn AnalysisResult) :=
  if password_input ≠ [] ∧ ms.isSome ∧ mc.isSome then
    some (predict_password_security password_input ms mc)
  else none

/-! ## Password generator (`generate_random_password`, app.py lines 73–87) -/

/-- `string.ascii_uppercase`. -/
def ascii_uppercase : List Char := "ABCDEFGHIJKLMNOPQRSTUVWXYZ".toList

/-- `string.ascii_lowercase`. -/
def ascii_lowercase : List Char := "abcdefghijklmnopqrstuvwxyz".toList

/-- `string.digits`. -/
def digits : List Char := "0123456789".toList

/-- Python `string.punctuation`: the 32 printable non-alphanumeric,
non-space ASCII characters, here given by code point (33–47, 58–64,
91–96, 123–126) in their ASCII order. -/
def punctuation : List Char :=
  ([33, 34, 35, 36, 37, 38, 39, 40, 41, 42, 43, 44, 45, 46, 47,
    58, 59, 60, 61, 62, 63, 64,
    91, 92, 93, 94, 95, 96,
    123, 124, 125, 126] : List ℕ).map Char.ofNat

/-- The `characters` string accumulated at app.py lines 74–82: the
concatenation of the enabled character classes, in source order. -/
def alphabet (use_uppercase use_lowercase use_digits use_symbols : Bool) :
    List Char :=
  (if use_uppercase then ascii_uppercase else []) ++
  (if use_lowercase then ascii_lowercase else []) ++
  (if use_digits then digits else []) ++
  (if use_symbols then punctuation else [])

/-- The value returned at app.py line 85 when no character class is
enabled: a plain message string, not a distinct failure type. -/
def empty_alphabet_message : String :=
  "Please select at least one character type."

/-- `generate_random_password(length, use_uppercase, use_lowercase,
use_digits, use_symbols)` (app.py lines 73–87).  The random source
`secrets.choice` is modelled by an oracle `pick` giving, for each
position, the index drawn (reduced modulo the alphabet size so every
oracle denotes a valid sequence of draws).  `length` is a Python integer;
`range(length)` is empty for non-positive values. -/
def generate_random_password (pick : ℕ → ℕ) (length : ℤ)
    (use_uppercase use_lowercase use_digits use_symbols : Bool) : String :=
  let characters := alphabet use_uppercase use_lowercase use_digits use_symbols
  if h : characters.length = 0 then empty_alphabet_message
  else
    ⟨(List.range length.toNat).map (fun i =>
      characters.get ⟨pick i % characters.length,
        Nat.mod_lt _ (Nat.pos_of_ne_zero h)⟩)⟩

/-! ## Specification-side definitions (for refinement claims) -/

/-- Written from the specification's words: `symbol_count` as "the count of
characters that are neither alphabetic nor a digit". -/
def symbol_count_spec (password : List Char) : ℕ :=
  password.countP (fun c => !(pyIsAlpha c || pyIsDigit c))

/-- Written from the specification's threshold table: left-inclusive
ranges `< 0.2`, `[0.2, 0.4)`, `[0.4, 0.6)`, `[0.6, 0.8)`, `≥ 0.8`.  The
final branch is unreachable because the ranges are exhaustive. -/
def assessment_label_spec (s : ℚ) : String :=
  if s < 0.2 then "Very Weak"
  else if 0.2 ≤ s ∧ s < 0.4 then "Weak"
  else if 0.4 ≤ s ∧ s < 0.6 then "Medium"
  else if 0.6 ≤ s ∧ s < 0.8 then "Strong"
  else if 0.8 ≤ s then "Very Strong"
  else ""

/-! ## Character-level classification facts -/

/-- On ASCII characters the four classes of line 26–30 are mutually
exclusive and exhaustive: exactly one of upper, lower, digit,
not-alphanumeric holds. -/
lemma char_class_one (c : Char) (h : c.toNat < 128) :
    (pyIsUpper c).toNat + (pyIsLower c).toNat + (pyIsDigit c).toNat +
      (!(pyIsAlnum c)).toNat = 1 := by
  have H : ∀ n < 128,
      (decide (65 ≤ n ∧ n ≤ 90)).toNat + (decide (97 ≤ n ∧ n ≤ 122)).toNat +
        (decide (48 ≤ n ∧ n ≤ 57)).toNat +
        (!(decide (65 ≤ n ∧ n ≤ 90) || decide (97 ≤ n ∧ n ≤ 122) ||
           decide (48 ≤ n ∧ n ≤ 57) || decide (n = 189))).toNat = 1 := by
    decide
  simp only [pyIsUpper, pyIsLower, pyIsDigit, pyIsAlnum]
  exact H c.toNat h

/-- On ASCII characters, "not alphanumeric" coincides with "none of
upper, lower, digit": the cascade's final fallback. -/
lemma char_symbol_fallback (c : Char) (h : c.toNat < 128) :
    (!(pyIsAlnum c)) = (!(pyIsUpper c) && !(pyIsLower c) && !(pyIsDigit c)) := by
  have H : ∀ n < 128,
      (!(decide (65 ≤ n ∧ n ≤ 90) || decide (97 ≤ n ∧ n ≤ 122) ||
         decide (48 ≤ n ∧ n ≤ 57) || decide (n = 189))) =
        (!(decide (65 ≤ n ∧ n ≤ 90)) && !(decide (97 ≤ n ∧ n ≤ 122)) &&
         !(decide (48 ≤ n ∧ n ≤ 57))) := by
    decide
  simp only [pyIsAlnum, pyIsUpper, pyIsLower, pyIsDigit]
  exact H c.toNat h

/-- On ASCII characters, "not alphanumeric" coincides with "neither
alphabetic nor a digit". -/
lemma char_symbol_spec (c : Char) (h : c.toNat < 128) :
    (!(pyIsAlnum c)) = (!(pyIsAlpha c || pyIsDigit c)) := by
  have H : ∀ n < 128,
      (!(decide (65 ≤ n ∧ n ≤ 90) || decide (97 ≤ n ∧ n ≤ 122) ||
         decide (48 ≤ n ∧ n ≤ 57) || decide (n = 189))) =
        (!((decide (65 ≤ n ∧ n ≤ 90) || decide (97 ≤ n ∧ n ≤ 122)) ||
           decide (48 ≤ n ∧ n ≤ 57))) := by
    decide
  simp only [pyIsAlnum, pyIsAlpha, pyIsUpper, pyIsLower, pyIsDigit]
  exact H c.toNat h

/-- The four class counts of an all-ASCII password sum to its length. -/
lemma counts_partition : ∀ (p : List Char), (∀ c ∈ p, c.toNat < 128) →
    uppercase_count p + lowercase_count p + digit_count p + symbol_count p =
      p.length := by
  intro p
  induction p with
  | nil => intro _; rfl
  | cons a t ih =>
    intro h
    have ha : a.toNat < 128 := h a (List.mem_cons_self a t)
    have ht := ih (fun c hc => h c (List.mem_cons_of_mem a hc))
    have hone := char_class_one a ha
    simp only [uppercase_count, lowercase_count, digit_count, symbol_count,
      List.countP_cons, List.length_cons] at *
    cases hu : pyIsUpper a <;> cases hl : pyIsLower a <;>
      cases hd : pyIsDigit a <;> cases hs : pyIsAlnum a <;>
      simp [hu, hl, hd, hs] at hone ⊢ <;> omega

/-! ## C1: the four class counts partition the password -/

/-- C1 (counterexample): the character U+00BD — numeric in Python, hence
alphanumeric, but neither a letter nor a digit — is counted in none of the
four classes, so for the one-character password "½" the counts sum to 0,
not to the length 1.  The partition claimed for every password fails. -/
theorem c1_cex :
    ¬ (uppercase_count [Char.ofNat 189] + lowercase_count [Char.ofNat 189] +
        digit_count [Char.ofNat 189] + symbol_count [Char.ofNat 189] =
        [Char.ofNat 189].length) := by
  decide

/-- C1 (amended): for every ASCII password, the four character-class
counts partition the password — their sum equals the length, each
character satisfies exactly one of the four classifications, and the
symbol class is exactly the fallback "none of upper, lower, digit". -/
theorem c1_partition_ascii (p : List Char) (h : ∀ c ∈ p, c.toNat < 128) :
    uppercase_count p + lowercase_count p + digit_count p + symbol_count p =
      p.length ∧
    ∀ c ∈ p,
      (pyIsUpper c).toNat + (pyIsLower c).toNat + (pyIsDigit c).toNat +
        (!(pyIsAlnum c)).toNat = 1 ∧
      (!(pyIsAlnum c)) =
        (!(pyIsUpper c) && !(pyIsLower c) && !(pyIsDigit c)) := by
  refine ⟨counts_partition p h, fun c hc => ?_⟩
  exact ⟨char_class_one c (h c hc), char_symbol_fallback c (h c hc)⟩

/-- C1 (witness): the amended theorem applied to the concrete ASCII
password "Ab3!". -/
theorem c1_witness :
    (∀ c ∈ ("Ab3!".toList), c.toNat < 128) ∧
    uppercase_count "Ab3!".toList + lowercase_count "Ab3!".toList +
      digit_count "Ab3!".toList + symbol_count "Ab3!".toList =
      ("Ab3!".toList).length :=
  ⟨by decide, (c1_partition_ascii "Ab3!".toList (by decide)).1⟩

/-! ## C7: symbol count versus "neither alphabetic nor a digit" -/

/-- C7 (counterexample): for the password "½" (U+00BD), the code's
`symbol_count` — characters that are not alphanumeric — is 0, while the
count of characters that are neither alphabetic nor a digit is 1: in
Python U+00BD is numeric, hence alphanumeric, without being alphabetic or
a digit. -/
theorem c7_cex :
    symbol_count [Char.ofNat 189] ≠ symbol_count_spec [Char.ofNat 189] := by
  decide

/-- C7 (amended): for every ASCII password, `symbol_count` equals the
number of characters that are neither alphabetic nor a decimal digit
(punctuation, whitespace, and every other non-alphanumeric character). -/
theorem c7_symbol_ascii (p : List Char) (h : ∀ c ∈ p, c.toNat < 128) :
    symbol_count p = symbol_count_spec p := by
  induction p with
  | nil => rfl
  | cons a t ih =>
    have ha : a.toNat < 128 := h a (List.mem_cons_self a t)
    have ht := ih (fun c hc => h c (List.mem_cons_of_mem a hc))
    simp only [symbol_count, symbol_count_spec, List.countP_cons] at *
    rw [ht, char_symbol_spec a ha]

/-- C7 (witness): the amended theorem applied to the concrete ASCII
password "a 1!". -/
theorem c7_witness :
    (∀ c ∈ ("a 1!".toList), c.toNat < 128) ∧
    symbol_count "a 1!".toList = symbol_count_spec "a 1!".toList :=
  ⟨by decide, c7_symbol_ascii "a 1!".toList (by decide)⟩

/-! ## C6: entropy edge cases -/

/-- The frequency table of a constant non-empty sequence has the single
key `c`. -/
lemma dedup_replicate_succ (n : ℕ) (c : Char) :
    (List.replicate (n + 1) c).dedup = [c] := by
  induction n with
  | zero => simp
  | succ k ih =>
    rw [List.replicate_succ,
      List.dedup_cons_of_mem (by simp [List.mem_replicate])]
    exact ih

/-- C6: `calculate_entropy` returns exactly 0 on the empty sequence (no
division by zero occurs: the empty case is returned before any division),
exactly 0 on any sequence of identical characters, and exactly `log2 n`
on any non-empty sequence of `n` pairwise-distinct characters. -/
theorem c6_entropy :
    calculate_entropy [] = 0 ∧
    (∀ (n : ℕ) (c : Char), calculate_entropy (List.replicate n c) = 0) ∧
    (∀ l : List Char, l.Nodup → l ≠ [] →
      calculate_entropy l = Real.logb 2 (l.length : ℝ)) := by
  refine ⟨by simp [calculate_entropy], ?_, ?_⟩
  · intro n c
    cases n with
    | zero => simp [calculate_entropy]
    | succ k =>
      unfold calculate_entropy
      rw [if_neg (by simp), dedup_replicate_succ]
      have hk : ((k : ℝ) + 1) ≠ 0 := by positivity
      simp only [List.map_cons, List.map_nil, List.count_replicate_self,
        List.length_replicate]
      push_cast
      rw [div_self hk, Real.logb_one]
      simp
  · intro l hnd hne
    unfold calculate_entropy
    rw [if_neg hne, List.dedup_eq_self.mpr hnd]
    have hlpos : 0 < l.length := List.length_pos.mpr hne
    have hn0 : (l.length : ℝ) ≠ 0 := Nat.cast_ne_zero.mpr hlpos.ne'
    have hterm : ∀ c ∈ l,
        -(((l.count c : ℝ) / (l.length : ℝ)) *
            Real.logb 2 ((l.count c : ℝ) / (l.length : ℝ))) =
          (1 / (l.length : ℝ)) * Real.logb 2 (l.length : ℝ) := by
      intro c hc
      rw [List.count_eq_one_of_mem hnd hc]
      push_cast
      rw [one_div, Real.logb_inv]
      ring
    rw [List.map_congr_left hterm, List.map_const', List.sum_replicate,
      nsmul_eq_mul]
    field_simp

/-- C6 (witness): the theorem applied to concrete inputs — the constant
password "aaa" has entropy 0, and the two-distinct-character password "ab"
has entropy `log2 2`. -/
theorem c6_witness :
    calculate_entropy (List.replicate 3 (Char.ofNat 97)) = 0 ∧
    calculate_entropy (String.toList "ab") = Real.logb 2 2 := by
  refine ⟨c6_entropy.2.1 3 (Char.ofNat 97), ?_⟩
  have h := c6_entropy.2.2 (String.toList "ab") (by decide) (by decide)
  simpa using h

/-! ## Generator facts -/

/-- Whenever at least one character class is enabled, the accumulated
alphabet is non-empty. -/
lemma alphabet_pos : ∀ u l d s : Bool, (u || l || d || s) = true →
    0 < (alphabet u l d s).length := by
  decide

/-- No generation alphabet contains the space character: the four class
catalogs hold only letters, digits and printable punctuation. -/
lemma space_not_mem_alphabet : ∀ u l d s : Bool,
    Char.ofNat 32 ∉ alphabet u l d s := by
  decide

/-- Every character of a generated password belongs to the alphabet of
the enabled classes (when that alphabet is non-empty). -/
lemma generate_mem (pick : ℕ → ℕ) (length : ℤ) (u l d s : Bool)
    (h : 0 < (alphabet u l d s).length) :
    ∀ c ∈ (generate_random_password pick length u l d s).data,
      c ∈ alphabet u l d s := by
  intro c hc
  unfold generate_random_password at hc
  rw [dif_neg h.ne'] at hc
  simp only [String.data] at hc
  obtain ⟨i, _, hi⟩ := List.mem_map.mp hc
  exact hi ▸ List.get_mem _ _ _

/-! ## C2: generation with every class disabled -/

/-- C2 (counterexample): with all four classes disabled and length 10 the
source returns the literal UI message — a plain string, not a value of a
distinguishable failure type: the claim that a string is never returned
fails. -/
theorem c2_cex :
    generate_random_password (fun _ => 0) 10 false false false false =
      "Please select at least one character type." := rfl

/-- C2 (amended): with all four classes disabled, for every length and
every random source, the source returns the fixed sentinel string
"Please select at least one character type." without throwing; the
sentinel is distinguishable from every possible generated password, since
it contains a space and no generation alphabet contains a space. -/
theorem c2_empty_alphabet (pick : ℕ → ℕ) (length : ℤ) :
    generate_random_password pick length false false false false =
      empty_alphabet_message ∧
    ∀ (pick2 : ℕ → ℕ) (length2 : ℤ) (u l d s : Bool),
      (u || l || d || s) = true →
      generate_random_password pick2 length2 u l d s ≠
        empty_alphabet_message := by
  constructor
  · rfl
  · intro pick2 length2 u l d s hflag heq
    have hpos := alphabet_pos u l d s hflag
    have hsp : Char.ofNat 32 ∈ empty_alphabet_message.data := by decide
    rw [← heq] at hsp
    exact space_not_mem_alphabet u l d s
      (generate_mem pick2 length2 u l d s hpos _ hsp)

/-- C2 (witness): the amended theorem at a concrete enabled
configuration, discharging its hypothesis. -/
theorem c2_witness :
    generate_random_password (fun _ => 0) 5 false false false false =
      empty_alphabet_message ∧
    generate_random_password (fun _ => 0) 5 true false false false ≠
      empty_alphabet_message :=
  ⟨(c2_empty_alphabet (fun _ => 0) 5).1,
   (c2_empty_alphabet (fun _ => 0) 5).2 (fun _ => 0) 5 true false false false
     (by decide)⟩

/-! ## C5: generation with at least one class enabled -/

/-- C5: with at least one class enabled and a length from the
specification's domain (`length ≥ 1`), the generated password has exactly
`length` characters, each drawn from the union of the enabled classes;
with all four classes enabled that union is the 94-character
printable-ASCII alphabet (26 uppercase + 26 lowercase + 10 digits + 32
punctuation characters, all distinct, all in the printable range 33–126). -/
theorem c5_generate (pick : ℕ → ℕ) (length : ℤ) (u l d s : Bool)
    (hflag : (u || l || d || s) = true) (hlen : 1 ≤ length) :
    ((generate_random_password pick length u l d s).length : ℤ) = length ∧
    (∀ c ∈ (generate_random_password pick length u l d s).data,
      c ∈ alphabet u l d s) ∧
    (alphabet true true true true).length = 94 ∧
    (alphabet true true true true).Nodup ∧
    (∀ c ∈ alphabet true true true true, 33 ≤ c.toNat ∧ c.toNat ≤ 126) ∧
    ascii_uppercase.length = 26 ∧ ascii_lowercase.length = 26 ∧
    digits.length = 10 ∧ punctuation.length = 32 := by
  have hpos := alphabet_pos u l d s hflag
  refine ⟨?_, generate_mem pick length u l d s hpos, by decide, by decide,
    by decide, by decide, by decide, by decide, by decide⟩
  unfold generate_random_password
  rw [dif_neg hpos.ne']
  simp only [String.length, List.length_map, List.length_range]
  exact Int.toNat_of_nonneg (by omega)

/-- C5 (witness): the theorem at the concrete configuration of the
specification's test property — all classes enabled, length 16. -/
theorem c5_witness :
    ((generate_random_password (fun _ => 0) 16 true true true true).length :
      ℤ) = 16 ∧
    ∀ c ∈ (generate_random_password (fun _ => 0) 16 true true true
        true).data, c ∈ alphabet true true true true :=
  ⟨(c5_generate (fun _ => 0) 16 true true true true (by decide)
      (by decide)).1,
   (c5_generate (fun _ => 0) 16 true true true true (by decide)
      (by decide)).2.1⟩

/-! ## C10: non-positive requested length -/

/-- C10: with at least one class enabled, a requested length of zero — or
any non-positive Python integer — makes `range(length)` empty, so the
source totally returns the empty string rather than failing. -/
theorem c10_nonpositive_length (pick : ℕ → ℕ) (length : ℤ) (u l d s : Bool)
    (hlen : length ≤ 0) (hflag : (u || l || d || s) = true) :
    generate_random_password pick length u l d s = "" := by
  have hpos := alphabet_pos u l d s hflag
  unfold generate_random_password
  rw [dif_neg hpos.ne']
  rw [Int.toNat_of_nonpos hlen]
  rfl

/-- C10 (witness): the theorem at length 0 and at the negative length -3,
with only lowercase enabled. -/
theorem c10_witness :
    generate_random_password (fun _ => 0) 0 false true false false = "" ∧
    generate_random_password (fun _ => 0) (-3) false true false false = "" :=
  ⟨c10_nonpositive_length (fun _ => 0) 0 false true false false (by decide)
     (by decide),
   c10_nonpositive_length (fun _ => 0) (-3) false true false false
     (by decide) (by decide)⟩

/-! ## C3: behaviour with an unavailable model -/

/-- C3 (counterexample): calling `predict_password_security` with the
`None` models produced by a failed `load_models()` raises `AttributeError`
(here: evaluates to the error value modelling that exception) — there is
no ModelUnavailable result variant in the source. -/
theorem c3_cex :
    predict_password_security [Char.ofNat 120] none none =
      Except.error PyExn.attributeError := rfl

/-- C3 (amended): `predict_password_security` called with an unavailable
(`None`) strength or crack-time model raises `AttributeError` rather than
returning a result; the page does not crash only because its guard checks
both models (and a non-empty input) before calling, rendering nothing
when a model is unavailable. -/
theorem c3_model_unavailable :
    (∀ (p : List Char) (mc : Option CrackTimeModel),
      predict_password_security p none mc =
        Except.error PyExn.attributeError) ∧
    (∀ (p : List Char) (ms : StrengthModel),
      predict_password_security p (some ms) none =
        Except.error PyExn.attributeError) ∧
    (∀ (p : List Char) (ms : Option StrengthModel)
        (mc : Option CrackTimeModel),
      ms = none ∨ mc = none → main_analysis p ms mc = none) := by
  refine ⟨fun p mc => rfl, fun p ms => rfl, fun p ms mc h => ?_⟩
  rcases h with h | h <;> subst h <;> simp [main_analysis]

/-- C3 (witness): the amended theorem at concrete inputs — both models
missing, password "x". -/
theorem c3_witness :
    predict_password_security [Char.ofNat 120] none none =
      Except.error PyExn.attributeError ∧
    main_analysis [Char.ofNat 120] none none = none :=
  ⟨c3_model_unavailable.1 [Char.ofNat 120] none,
   c3_model_unavailable.2.2 [Char.ofNat 120] none none (Or.inl rfl)⟩

/-! ## C4: the threshold policy -/

/-- C4: the cascade of strict comparisons at app.py lines 46–60 realises
exactly the specification's left-inclusive threshold table — `< 0.2` Very
Weak, `[0.2, 0.4)` Weak, `[0.4, 0.6)` Medium, `[0.6, 0.8)` Strong,
`≥ 0.8` Very Strong — for every model score; in particular a score of
exactly 0.2 is assessed "Weak", not "Very Weak". -/
theorem c4_thresholds :
    (∀ (p : List Char) (ms : StrengthModel) (mc : CrackTimeModel),
      (predict_password_security p (some ms) (some mc)).map
          (fun r => r.strength_assessment) =
        Except.ok (assessment_label_spec (ms.predict (input_data p)))) ∧
    (∀ (p : List Char) (mc : CrackTimeModel),
      (predict_password_security p (some ⟨fun _ => (0.2 : ℚ)⟩)
          (some mc)).map (fun r => r.strength_assessment) =
        Except.ok "Weak") := by
  have key : ∀ s : ℚ,
      (if s < 0.2 then "Very Weak"
       else if s < 0.4 then "Weak"
       else if s < 0.6 then "Medium"
       else if s < 0.8 then "Strong"
       else "Very Strong") = assessment_label_spec s := by
    intro s
    unfold assessment_label_spec
    by_cases h1 : s < 0.2
    · simp [h1]
    · have h1a : (0.2 : ℚ) ≤ s := not_lt.mp h1
      by_cases h2 : s < 0.4
      · simp [h1, h1a, h2]
      · have h2a : (0.4 : ℚ) ≤ s := not_lt.mp h2
        by_cases h3 : s < 0.6
        · simp [h1, h1a, h2, h2a, h3]
        · have h3a : (0.6 : ℚ) ≤ s := not_lt.mp h3
          by_cases h4 : s < 0.8
          · simp [h1, h1a, h2, h2a, h3, h3a, h4]
          · have h4a : (0.8 : ℚ) ≤ s := not_lt.mp h4
            simp [h1, h1a, h2, h2a, h3, h3a, h4, h4a]
  constructor
  · intro p ms mc
    show Except.ok _ = _
    rw [key]
  · intro p mc
    show Except.ok _ = _
    norm_num

/-! ## C8: no clamping of the raw score -/

/-- C8: `predict_password_security` neither clamps nor validates the
model's raw score: the `strength` field is the raw score unchanged, the
percentage string is the raw score times 100 (formatted, possibly outside
0–100), a negative score lands in the "Very Weak" catch-all and a score
above 1 in the "Very Strong" catch-all. -/
theorem c8_no_clamping (p : List Char) (ms : StrengthModel)
    (mc : CrackTimeModel) :
    (predict_password_security p (some ms) (some mc)).map
        (fun r => r.strength) = Except.ok (ms.predict (input_data p)) ∧
    (predict_password_security p (some ms) (some mc)).map
        (fun r => r.strength_percentage) =
      Except.ok (pyFormat2f (ms.predict (input_data p) * 100) ++ "%") ∧
    (ms.predict (input_data p) < 0 →
      (predict_password_security p (some ms) (some mc)).map
          (fun r => r.strength_assessment) = Except.ok "Very Weak") ∧
    (1 < ms.predict (input_data p) →
      (predict_password_security p (some ms) (some mc)).map
          (fun r => r.strength_assessment) = Except.ok "Very Strong") := by
  refine ⟨rfl, rfl, fun hneg => ?_, fun hbig => ?_⟩
  · show Except.ok _ = _
    rw [if_pos (by norm_num; linarith)]
  · show Except.ok _ = _
    rw [if_neg (by norm_num; linarith), if_neg (by norm_num; linarith),
      if_neg (by norm_num; linarith), if_neg (by norm_num; linarith)]

/-- C8 (witness): the theorem at concrete out-of-range scores — a stub
model returning -1 is assessed "Very Weak" and one returning 2 is
assessed "Very Strong"; the strength field passes -1 through unchanged. -/
theorem c8_witness :
    (predict_password_security [] (some ⟨fun _ => (-1 : ℚ)⟩)
        (some ⟨fun _ => "u"⟩)).map (fun r => r.strength) =
      Except.ok (-1) ∧
    (predict_password_security [] (some ⟨fun _ => (-1 : ℚ)⟩)
        (some ⟨fun _ => "u"⟩)).map (fun r => r.strength_assessment) =
      Except.ok "Very Weak" ∧
    (predict_password_security [] (some ⟨fun _ => (2 : ℚ)⟩)
        (some ⟨fun _ => "u"⟩)).map (fun r => r.strength_assessment) =
      Except.ok "Very Strong" :=
  ⟨(c8_no_clamping [] ⟨fun _ => (-1 : ℚ)⟩ ⟨fun _ => "u"⟩).1,
   (c8_no_clamping [] ⟨fun _ => (-1 : ℚ)⟩ ⟨fun _ => "u"⟩).2.2.1
     (by norm_num),
   (c8_no_clamping [] ⟨fun _ => (2 : ℚ)⟩ ⟨fun _ => "u"⟩).2.2.2
     (by norm_num)⟩

/-! ## C9: the percentage string -/

/-- Both decimal digits emitted by `pyFormat2f` are digit characters. -/
lemma ofNat_mod10_isDigit (m : ℕ) :
    (Char.ofNat (48 + m % 10)).isDigit = true := by
  have h : m % 10 < 10 := Nat.mod_lt _ (by norm_num)
  revert h
  generalize m % 10 = k
  intro h
  interval_cases k <;> decide

/-- C9: the `strength_percentage` field is the raw score multiplied by
100, formatted by `pyFormat2f` with a trailing percent sign; and for every
value, the formatted string consists of a prefix, a dot, and exactly two
decimal digits. -/
theorem c9_percentage :
    (∀ (p : List Char) (ms : StrengthModel) (mc : CrackTimeModel),
      (predict_password_security p (some ms) (some mc)).map
          (fun r => r.strength_percentage) =
        Except.ok (pyFormat2f (ms.predict (input_data p) * 100) ++ "%")) ∧
    (∀ x : ℚ, ∃ (intPart : String) (d1 d2 : Char),
      pyFormat2f x = intPart ++ "." ++ String.mk [d1, d2] ∧
      d1.isDigit = true ∧ d2.isDigit = true) := by
  refine ⟨fun p ms mc => rfl, fun x => ?_⟩
  refine ⟨(if x < 0 then "-" else "") ++
      toString ((roundHalfEven (|x| * 100)).toNat / 100),
    Char.ofNat (48 + (roundHalfEven (|x| * 100)).toNat / 10 % 10),
    Char.ofNat (48 + (roundHalfEven (|x| * 100)).toNat % 10),
    rfl, ofNat_mod10_isDigit _, ofNat_mod10_isDigit _⟩

end PassSec
